import Mathlib

/-!
Shallow embedding of `init.go` from the `openssl` Go package (a light
wrapper around the native OpenSSL library).

The file embeds two pieces of the source:

* `func init()` — the package-level one-time setup sequence.  The native
  calls are modelled as an emitted trace of `Step` events; the return
  code of the native lock-bank allocation `Goopenssl_init_locks` is an
  environment parameter, since its body lives in the native layer.
* `func errorFromErrorQueue() error` — draining the native per-thread
  error queue.  The queue is modelled as a FIFO `List Nat` of error
  codes (`ERR_get_error` pops the head and returns the sentinel `0` on
  an empty queue), and the native string-resolution tables
  (`ERR_lib_error_string`, `ERR_func_error_string`,
  `ERR_reason_error_string`) as total functions `Nat → String`.
  The Go `error` return value is modelled as `Option String`
  (`some msg` = a non-nil error carrying message `msg`; `none` = nil).
-/

set_option autoImplicit false

namespace OpenSSL

/-- The setup calls made by `func init()` in `init.go`, in the order the
source performs them, plus the two native calls made inside
`Goopenssl_init_threadsafety`. -/
inductive Step where
  /-- `C.OPENSSL_config(nil)` — load configuration defaults. -/
  | opensslConfig
  /-- `C.ENGINE_load_builtin_engines()`. -/
  | engineLoadBuiltinEngines
  /-- `C.SSL_load_error_strings()`. -/
  | sslLoadErrorStrings
  /-- `C.SSL_library_init()`. -/
  | sslLibraryInit
  /-- `C.OpenSSL_add_all_algorithms_not_a_macro()`. -/
  | addAllAlgorithms
  /-- `Goopenssl_init_locks()` — allocate the lock bank. -/
  | initLocks
  /-- `CRYPTO_set_locking_callback(Goopenssl_thread_locking_callback)`. -/
  | setLockingCallback
deriving DecidableEq, Repr

/-- The C helper `Goopenssl_init_threadsafety` from `init.go`: calls
`Goopenssl_init_locks()`; iff that returns `0` it registers the locking
callback; returns the allocation return code.  `rcLocks` is the value
returned by the native allocation call. -/
def Goopenssl_init_threadsafety (rcLocks : Int) : List Step × Int :=
  if rcLocks = 0 then ([Step.initLocks, Step.setLockingCallback], rcLocks)
  else ([Step.initLocks], rcLocks)

/-- Outcome of running `func init()`: the trace of native setup calls
performed, and the panic message if the function panicked (`none` means
normal completion; Go's `init` has no error return channel at all). -/
structure InitResult where
  trace : List Step
  panicMsg : Option String
deriving DecidableEq, Repr

/-- `func init()` from `init.go`: the five unconditional setup calls in
source order, then `Goopenssl_init_threadsafety`; a nonzero return code
from the lock-bank allocation triggers
`panic(fmt.Errorf("Goopenssl_init_locks failed with %d", rc))`. -/
def goInit (rcLocks : Int) : InitResult :=
  let pre := [Step.opensslConfig, Step.engineLoadBuiltinEngines,
    Step.sslLoadErrorStrings, Step.sslLibraryInit, Step.addAllAlgorithms]
  let ts := Goopenssl_init_threadsafety rcLocks
  if ts.2 ≠ 0 then
    { trace := pre ++ ts.1
      panicMsg := some ("Goopenssl_init_locks failed with " ++ toString ts.2) }
  else
    { trace := pre ++ ts.1, panicMsg := none }

/-- The trace of native setup calls a process performs during
initialization.  The Go runtime executes each package `init` function
exactly once per process, before `main` starts, so the process-wide
initialization trace is the trace of a single run of `goInit`. -/
def processTrace (rcLocks : Int) : List Step :=
  (goInit rcLocks).trace

/-- The native error-string tables queried by `errorFromErrorQueue`:
`ERR_lib_error_string`, `ERR_func_error_string` and
`ERR_reason_error_string`, each taking an error code to a string
(`C.GoString` of a NULL result is the empty string, so the tables are
total). -/
structure ErrTables where
  libStr : Nat → String
  funcStr : Nat → String
  reasonStr : Nat → String

/-- `C.ERR_get_error()`: pops the oldest code from the calling thread's
error queue; returns the sentinel `0` (and leaves the queue empty) when
the queue is empty. -/
def ERR_get_error : List Nat → Nat × List Nat
  | [] => (0, [])
  | c :: rest => (c, rest)

/-- The `fmt.Sprintf("%s:%s:%s", ...)` rendering of one drained error
code: library name, function name and reason joined by `":"`. -/
def renderErr (T : ErrTables) (c : Nat) : String :=
  T.libStr c ++ ":" ++ T.funcStr c ++ ":" ++ T.reasonStr c

/-- The `for` loop of `errorFromErrorQueue`, by recursion on the queue:
pop a code with `ERR_get_error`; break when it is the sentinel `0`;
otherwise append its rendering to `errs` and continue.  Returns the
accumulated renderings and the remaining queue. -/
def drainLoop (T : ErrTables) : List Nat → List String → List String × List Nat
  | [], errs => (errs, [])
  | c :: rest, errs =>
    if c = 0 then (errs, rest)
    else drainLoop T rest (errs ++ [renderErr T c])

/-- The same loop written step-indexed, one fuel unit per iteration of
the source's unbounded `for`: `none` means the fuel ran out before the
sentinel was popped. -/
def drainLoopFuel (T : ErrTables) :
    Nat → List Nat → List String → Option (List String × List Nat)
  | 0, _, _ => none
  | fuel + 1, q, errs =>
    let p := ERR_get_error q
    if p.1 = 0 then some (errs, p.2)
    else drainLoopFuel T fuel p.2 (errs ++ [renderErr T p.1])

/-- `func errorFromErrorQueue() error` from `init.go`: drain the
calling thread's queue, then return
`errors.New(fmt.Sprintf("SSL errors: %s", strings.Join(errs, "\n")))`.
First component: the returned Go `error` (`some` = non-nil, carrying the
message).  Second component: the thread's queue after the call. -/
def errorFromErrorQueue (T : ErrTables) (q : List Nat) :
    Option String × List Nat :=
  let r := drainLoop T q []
  (some ("SSL errors: " ++ String.intercalate "\n" r.1), r.2)

/-- Concrete error-string tables used for evaluating the embedding at
specific inputs. -/
def T0 : ErrTables :=
  { libStr := fun c => "lib" ++ toString c
    funcStr := fun c => "func" ++ toString c
    reasonStr := fun c => "reason" ++ toString c }

/-- Shared state for the exactly-once model of package initialization.
The Go runtime guarantees that each package `init` function body runs
exactly once per process; this is the runtime's one-time-execution
primitive, embedded as an atomic check-and-run over shared state.
`runs` collects the trace of each execution of the `init` body. -/
structure OnceState where
  done : Bool
  runs : List (List Step)
deriving DecidableEq, Repr

/-- One caller triggering initialization: the runtime's one-time
primitive atomically checks `done`; when not yet done it runs the
`init` body (recording its trace) and marks `done`; the caller returns
only once `done` holds. -/
def ensureInit (rcLocks : Int) (s : OnceState) : OnceState :=
  if s.done then s
  else { done := true, runs := s.runs ++ [(goInit rcLocks).trace] }

/-- `k` callers triggering initialization one after the other.  Each
call through the one-time primitive is atomic, so every interleaving of
`k` identical callers is some sequential order of the `k` calls. -/
def runCallers (rcLocks : Int) : Nat → OnceState → OnceState
  | 0, s => s
  | k + 1, s => runCallers rcLocks k (ensureInit rcLocks s)

/-- The fresh process state: initialization not yet run. -/
def startState : OnceState := { done := false, runs := [] }

example : (errorFromErrorQueue T0 [1, 2]).1 =
    some "SSL errors: lib1:func1:reason1\nlib2:func2:reason2" := by decide

example : (errorFromErrorQueue T0 []).1 = some "SSL errors: " := by decide

example : goInit 0 = { trace := [Step.opensslConfig,
    Step.engineLoadBuiltinEngines, Step.sslLoadErrorStrings,
    Step.sslLibraryInit, Step.addAllAlgorithms, Step.initLocks,
    Step.setLockingCallback], panicMsg := none } := by decide

example : (goInit 3).panicMsg = some "Goopenssl_init_locks failed with 3" := by
  decide

/-- Auxiliary for `lines`: split a character list at each newline,
carrying the (reversed) characters of the current line. -/
def linesAux : List Char → List Char → List String
  | [], acc => [String.mk acc.reverse]
  | c :: cs, acc =>
    if c = '\n' then String.mk acc.reverse :: linesAux cs []
    else linesAux cs (c :: acc)

/-- The lines of a string: the maximal newline-free substrings obtained
by cutting at every `'\n'` (so `"a\nb"` has lines `["a", "b"]` and a
newline-free string has exactly one line).  Observation function used to
state the claims about line structure of error messages. -/
def lines (s : String) : List String :=
  linesAux s.data []

/-! ### Helper lemmas about the drain loop -/

/-- When every queued code is nonzero (as for genuine native error
codes, the sentinel `0` being reserved for "no error"), the loop drains
the whole queue, appending the renderings in queue order, and leaves the
queue empty. -/
theorem drainLoop_all_nonzero (T : ErrTables) (q : List Nat)
    (errs : List String) (h : ∀ c ∈ q, c ≠ 0) :
    drainLoop T q errs = (errs ++ q.map (renderErr T), []) := by
  induction q generalizing errs with
  | nil => simp [drainLoop]
  | cons c rest ih =>
    have hc : c ≠ 0 := h c (List.mem_cons_self c rest)
    have hrest : ∀ x ∈ rest, x ≠ 0 :=
      fun x hx => h x (List.mem_cons_of_mem c hx)
    simp [drainLoop, hc, ih _ hrest]

/-- Every string the loop adds to the accumulator is the rendering of
some code in the queue. -/
theorem drainLoop_mem (T : ErrTables) (q : List Nat) (errs : List String)
    (s : String) (hs : s ∈ (drainLoop T q errs).1) :
    s ∈ errs ∨ ∃ c, c ∈ q ∧ s = renderErr T c := by
  induction q generalizing errs with
  | nil =>
    left
    simpa [drainLoop] using hs
  | cons c rest ih =>
    by_cases hc : c = 0
    · left
      simpa [drainLoop, hc] using hs
    · rw [drainLoop, if_neg hc] at hs
      rcases ih _ hs with hmem | ⟨d, hd, hsd⟩
      · rcases List.mem_append.mp hmem with h1 | h2
        · exact Or.inl h1
        · exact Or.inr ⟨c, List.mem_cons_self c rest,
            by simpa using h2⟩
      · exact Or.inr ⟨d, List.mem_cons_of_mem c hd, hsd⟩

/-- One iteration of the step-indexed loop on a nonzero head code. -/
theorem drainLoopFuel_succ (T : ErrTables) (fuel c : Nat) (rest : List Nat)
    (errs : List String) (hc : c ≠ 0) :
    drainLoopFuel T (fuel + 1) (c :: rest) errs =
      drainLoopFuel T fuel rest (errs ++ [renderErr T c]) := by
  rw [drainLoopFuel]
  simp [ERR_get_error, hc]

/-- Fuel `|q| + 1` always suffices for the step-indexed loop, and it
computes exactly what the recursive loop computes. -/
theorem drainLoopFuel_complete (T : ErrTables) (q : List Nat)
    (errs : List String) :
    drainLoopFuel T (q.length + 1) q errs = some (drainLoop T q errs) := by
  induction q generalizing errs with
  | nil =>
    rw [drainLoopFuel]
    simp [ERR_get_error, drainLoop]
  | cons c rest ih =>
    by_cases hc : c = 0
    · subst hc
      rw [drainLoopFuel]
      simp [ERR_get_error, drainLoop]
    · rw [show ((c :: rest).length + 1) = (rest.length + 1) + 1 from rfl,
        drainLoopFuel_succ T _ c rest errs hc, drainLoop, if_neg hc]
      exact ih _

/-! ### Helper lemmas about `lines` -/

/-- A newline-free character list yields a single line. -/
theorem linesAux_no_newline (cs acc : List Char) (h : '\n' ∉ cs) :
    linesAux cs acc = [String.mk (acc.reverse ++ cs)] := by
  induction cs generalizing acc with
  | nil => simp [linesAux]
  | cons c cs ih =>
    have hc : c ≠ '\n' := fun hh => h (hh ▸ List.mem_cons_self c cs)
    have hcs : '\n' ∉ cs := fun hh => h (List.mem_cons_of_mem c hh)
    rw [linesAux, if_neg hc, ih _ hcs]
    simp

/-- Cutting at the first newline when the part before it is
newline-free. -/
theorem linesAux_split (xs ys acc : List Char) (hx : '\n' ∉ xs) :
    linesAux (xs ++ '\n' :: ys) acc =
      String.mk (acc.reverse ++ xs) :: linesAux ys [] := by
  induction xs generalizing acc with
  | nil => simp [linesAux]
  | cons c cs ih =>
    have hc : c ≠ '\n' := fun hh => hx (hh ▸ List.mem_cons_self c cs)
    have hcs : '\n' ∉ cs := fun hh => hx (List.mem_cons_of_mem c hh)
    rw [List.cons_append, linesAux, if_neg hc, ih _ hcs]
    simp

/-- Two newline-free strings joined by one newline form exactly two
lines. -/
theorem lines_append_two (u v : String) (hu : '\n' ∉ u.data)
    (hv : '\n' ∉ v.data) : lines (u ++ "\n" ++ v) = [u, v] := by
  have hdata : (u ++ "\n" ++ v).data = u.data ++ '\n' :: v.data := by
    simp [String.data_append]
  rw [lines, hdata, linesAux_split _ _ _ hu, linesAux_no_newline _ _ hv]
  simp

/-! ### Helper lemmas about the exactly-once model -/

/-- Once initialization is done, further callers leave the state
unchanged. -/
theorem runCallers_of_done (rc : Int) (k : Nat) (s : OnceState)
    (h : s.done = true) : runCallers rc k s = s := by
  induction k with
  | zero => rfl
  | succ k ih => simp [runCallers, ensureInit, h, ih]

/-- From a fresh process state, any positive number of callers produces
exactly one execution of the `init` body. -/
theorem runCallers_start (rc : Int) (k : Nat) (h : 1 ≤ k) :
    runCallers rc k startState =
      { done := true, runs := [(goInit rc).trace] } := by
  obtain ⟨j, rfl⟩ : ∃ j, k = j + 1 := ⟨k - 1, by omega⟩
  show runCallers rc (j + 1) startState = _
  rw [runCallers]
  have h1 : ensureInit rc startState =
      { done := true, runs := [(goInit rc).trace] } := by
    simp [ensureInit, startState]
  rw [h1, runCallers_of_done _ _ _ rfl]

/-! ### Claim theorems -/

/-- Claim C1: the process-wide initialization trace performs the native
setup steps exactly once each, in the fixed order configuration
defaults, built-in engines, error strings, library init, algorithm
registration, lock-bank allocation, locking callback — and the locking
callback is registered only when the lock-bank allocation succeeded
(returned 0). -/
theorem init_fixed_order (rc : Int) (h : rc = 0) :
    processTrace rc = [Step.opensslConfig, Step.engineLoadBuiltinEngines,
      Step.sslLoadErrorStrings, Step.sslLibraryInit, Step.addAllAlgorithms,
      Step.initLocks, Step.setLockingCallback] ∧
    (∀ s : Step, (processTrace rc).count s = 1) ∧
    (∀ rc2 : Int, Step.setLockingCallback ∈ processTrace rc2 → rc2 = 0) := by
  subst h
  refine ⟨by decide, ?_, ?_⟩
  · intro s
    cases s <;> decide
  · intro rc2 hmem
    by_contra hne
    simp [processTrace, goInit, Goopenssl_init_threadsafety, hne] at hmem

/-- Witness for C1 at `rc = 0`. -/
theorem init_fixed_order_witness :
    processTrace 0 = [Step.opensslConfig, Step.engineLoadBuiltinEngines,
      Step.sslLoadErrorStrings, Step.sslLibraryInit, Step.addAllAlgorithms,
      Step.initLocks, Step.setLockingCallback] :=
  (init_fixed_order 0 rfl).1

/-- Claim C2: a nonzero return from lock-bank allocation makes `init`
panic with the descriptive message (Go `init` has no error-value return
channel), and the locking callback is never registered in that case. -/
theorem lock_alloc_failure_panics (rc : Int) (h : rc ≠ 0) :
    (goInit rc).panicMsg =
      some ("Goopenssl_init_locks failed with " ++ toString rc) ∧
    Step.setLockingCallback ∉ (goInit rc).trace := by
  constructor
  · simp [goInit, Goopenssl_init_threadsafety, h]
  · simp [goInit, Goopenssl_init_threadsafety, h]

/-- Witness for C2 at `rc = 7`. -/
theorem lock_alloc_failure_panics_witness :
    (goInit 7).panicMsg =
      some ("Goopenssl_init_locks failed with " ++ toString (7 : Int)) ∧
    Step.setLockingCallback ∉ (goInit 7).trace :=
  lock_alloc_failure_panics 7 (by decide)

/-- Claim C3: on a queue of genuine (nonzero) error codes, the drainer
reads the per-thread queue to exhaustion, stopping exactly at the
sentinel `0`; after it returns, a further pop on the same thread yields
the sentinel. -/
theorem drain_stops_at_sentinel (T : ErrTables) (q : List Nat)
    (h : ∀ c ∈ q, c ≠ 0) :
    (errorFromErrorQueue T q).2 = [] ∧
    ERR_get_error (errorFromErrorQueue T q).2 = (0, []) := by
  have hd := drainLoop_all_nonzero T q [] h
  constructor
  · simp [errorFromErrorQueue, hd]
  · simp [errorFromErrorQueue, hd, ERR_get_error]

/-- Witness for C3 at tables `T0` and queue `[1, 2]`. -/
theorem drain_stops_at_sentinel_witness :
    (errorFromErrorQueue T0 [1, 2]).2 = [] ∧
    ERR_get_error (errorFromErrorQueue T0 [1, 2]).2 = (0, []) :=
  drain_stops_at_sentinel T0 [1, 2] (by decide)

/-- Claim C4: draining enumerates every queued code, oldest first: the
accumulated renderings are exactly the queue mapped through the
renderer in queue order, and for a queue `[a, b, c]` the message shows
`a`'s text, then `b`'s, then `c`'s. -/
theorem drain_enumerates_in_order (T : ErrTables) (q : List Nat)
    (h : ∀ c ∈ q, c ≠ 0) :
    (drainLoop T q []).1 = q.map (renderErr T) ∧
    (∀ a b c : Nat, q = [a, b, c] →
      (errorFromErrorQueue T q).1 =
        some ("SSL errors: " ++ renderErr T a ++ "\n" ++ renderErr T b ++
          "\n" ++ renderErr T c)) := by
  have hd := drainLoop_all_nonzero T q [] h
  constructor
  · simp [hd]
  · rintro a b c rfl
    have hd3 := drainLoop_all_nonzero T [a, b, c] [] h
    simp only [errorFromErrorQueue, hd3, List.map]
    refine congrArg some (String.ext ?_)
    simp [String.data_append, String.intercalate, String.intercalate.go]

/-- Witness for C4 at tables `T0` and queue `[1, 2, 3]`. -/
theorem drain_enumerates_in_order_witness :
    (drainLoop T0 [1, 2, 3] []).1 = [1, 2, 3].map (renderErr T0) ∧
    (∀ a b c : Nat, [1, 2, 3] = [a, b, c] →
      (errorFromErrorQueue T0 [1, 2, 3]).1 =
        some ("SSL errors: " ++ renderErr T0 a ++ "\n" ++ renderErr T0 b ++
          "\n" ++ renderErr T0 c)) :=
  drain_enumerates_in_order T0 [1, 2, 3] (by decide)

/-- Claim C5, counterexample: for the two-code queue `[1, 2]` under the
tables `T0`, the message's lines are NOT the two bare
`<subsystem>:<function>:<reason>` renderings — the first line carries
the literal `"SSL errors: "` in front of the first rendering. -/
theorem two_record_lines_counterexample :
    ¬ (lines ((errorFromErrorQueue T0 [1, 2]).1.getD "") =
      [renderErr T0 1, renderErr T0 2]) := by
  decide

/-- Claim C5, amended: on a queue of exactly two nonzero codes whose
renderings are newline-free, the message has exactly two lines; the
second line is the bare `<subsystem>:<function>:<reason>` rendering of
the newer record, while the first is the literal `"SSL errors: "`
followed by the rendering of the older record. -/
theorem two_record_message_lines (T : ErrTables) (c1 c2 : Nat)
    (h1 : c1 ≠ 0) (h2 : c2 ≠ 0) (hn1 : '\n' ∉ (renderErr T c1).data)
    (hn2 : '\n' ∉ (renderErr T c2).data) :
    ∃ m : String, (errorFromErrorQueue T [c1, c2]).1 = some m ∧
      lines m = ["SSL errors: " ++ renderErr T c1, renderErr T c2] := by
  have h : ∀ c ∈ [c1, c2], c ≠ 0 := by
    intro c hc
    rcases List.mem_cons.mp hc with rfl | hc2
    · exact h1
    · rcases List.mem_cons.mp hc2 with rfl | hc3
      · exact h2
      · cases hc3
  have hd := drainLoop_all_nonzero T [c1, c2] [] h
  refine ⟨("SSL errors: " ++ renderErr T c1) ++ "\n" ++ renderErr T c2,
    ?_, ?_⟩
  · simp only [errorFromErrorQueue, hd, List.map]
    refine congrArg some (String.ext ?_)
    simp [String.data_append, String.intercalate, String.intercalate.go]
  · refine lines_append_two _ _ ?_ hn2
    intro hmem
    exact hn1 (by simpa [String.data_append] using hmem)

/-- Witness for the amended C5 at tables `T0` and queue `[1, 2]`. -/
theorem two_record_message_lines_witness :
    ∃ m : String, (errorFromErrorQueue T0 [1, 2]).1 = some m ∧
      lines m = ["SSL errors: " ++ renderErr T0 1, renderErr T0 2] :=
  two_record_message_lines T0 1 2 (by decide) (by decide) (by decide)
    (by decide)

/-- Claim C6: draining an empty queue is not a failure and yields a
non-nil error (`some`, never `none`) built from zero drained records. -/
theorem drain_empty_queue_nonnil (T : ErrTables) :
    errorFromErrorQueue T [] = (some "SSL errors: ", []) ∧
    (drainLoop T [] []).1 = [] := by
  constructor
  · simp [errorFromErrorQueue, drainLoop, String.intercalate]
  · rfl

/-- Claim C7: every drained record is rendered from exactly three
string components — owning-subsystem name, function name, failure
reason — joined in that fixed order with `":"` as separator. -/
theorem drained_record_three_components (T : ErrTables) (q : List Nat)
    (s : String) (hs : s ∈ (drainLoop T q []).1) :
    ∃ c, c ∈ q ∧
      s = T.libStr c ++ ":" ++ T.funcStr c ++ ":" ++ T.reasonStr c := by
  rcases drainLoop_mem T q [] s hs with hmem | ⟨c, hc, rfl⟩
  · cases hmem
  · exact ⟨c, hc, rfl⟩

/-- Witness for C7 at tables `T0`, queue `[1]` and its sole rendered
record. -/
theorem drained_record_three_components_witness :
    ∃ c, c ∈ [1] ∧
      renderErr T0 1 =
        T0.libStr c ++ ":" ++ T0.funcStr c ++ ":" ++ T0.reasonStr c :=
  drained_record_three_components T0 [1] (renderErr T0 1) (by decide)

/-- Claim C8: with initialization guarded by the runtime's atomic
one-time-execution primitive, `k ≥ 2` callers triggering it produce
exactly one execution of the setup sequence (never zero, never two),
and every caller — in particular each of the first `j ≤ k` — observes
completed initialization before proceeding. -/
theorem concurrent_init_exactly_once (rc : Int) (k : Nat) (h : 2 ≤ k) :
    (runCallers rc k startState).runs = [(goInit rc).trace] ∧
    (runCallers rc k startState).done = true ∧
    (∀ j, 1 ≤ j → j ≤ k →
      (runCallers rc j startState).done = true) := by
  rw [runCallers_start rc k (by omega)]
  refine ⟨rfl, rfl, ?_⟩
  intro j hj _
  rw [runCallers_start rc j hj]

/-- Witness for C8 at `rc = 0` and `k = 2`. -/
theorem concurrent_init_exactly_once_witness :
    (runCallers 0 2 startState).runs = [(goInit 0).trace] ∧
    (runCallers 0 2 startState).done = true ∧
    (∀ j, 1 ≤ j → j ≤ 2 →
      (runCallers 0 j startState).done = true) :=
  concurrent_init_exactly_once 0 2 (by decide)

/-- Claim C9: for every queue, the returned message is exactly the
literal `"SSL errors: "` followed by the drained renderings joined with
`"\n"`; hence every message begins with `"SSL errors: "`, and the empty
queue yields exactly the message `"SSL errors: "`. -/
theorem message_format_ssl_errors (T : ErrTables) (q : List Nat) :
    (errorFromErrorQueue T q).1 =
      some ("SSL errors: " ++
        String.intercalate "\n" (drainLoop T q []).1) ∧
    (∃ rest, (errorFromErrorQueue T q).1 =
      some ("SSL errors: " ++ rest)) ∧
    (errorFromErrorQueue T []).1 = some "SSL errors: " := by
  refine ⟨rfl, ⟨_, rfl⟩, ?_⟩
  simp [errorFromErrorQueue, drainLoop, String.intercalate]

/-- Claim C10: the drain loop terminates on every finite queue — each
iteration removes one code, so fuel `|q| + 1` always suffices for the
step-indexed loop to pop the sentinel and return, with the same result
as the recursive denotation. -/
theorem drain_terminates (T : ErrTables) (q : List Nat)
    (errs : List String) :
    drainLoopFuel T (q.length + 1) q errs = some (drainLoop T q errs) :=
  drainLoopFuel_complete T q errs

end OpenSSL
